import Mathlib

set_option maxRecDepth 100000

/-!
Verification development for the btrfsd maintenance daemon (C sources under
`src/`).  C strings are modelled as `List Char` (named `Str` below); byte-wise
`g_strcmp0` comparison of UTF-8 strings coincides with code-point-wise
comparison of the decoded character lists, so the `List Char` linear order is a
faithful model of the C string order.  Machine integers are modelled as
`Int`/`Nat` with explicit `% 2 ^ 64` where unsigned 64-bit overflow matters.
External effects (subprocess outcomes, wall-clock reads, battery probe, file
system) are supplied as explicit oracle inputs, so every function is the pure
image of the corresponding C function over those inputs.
-/

/-- C strings (already decoded from UTF-8). -/

abbrev Str := List Char

/-- The `{` character, written via its code point. -/

def lbrace : Char := Char.ofNat 123

/-- The `}` character, written via its code point. -/

def rbrace : Char := Char.ofNat 125

/-- `SECONDS_IN_AN_HOUR` from btd-utils.h. -/

def SECONDS_IN_AN_HOUR : Nat := 60 * 60

/-- `SECONDS_IN_A_DAY` from btd-utils.h. -/

def SECONDS_IN_A_DAY : Nat := 24 * SECONDS_IN_AN_HOUR

/-- `SECONDS_IN_A_WEEK` from btd-utils.h. -/

def SECONDS_IN_A_WEEK : Nat := 7 * SECONDS_IN_A_DAY

/-- `SECONDS_IN_A_MONTH` from btd-utils.h: `(int) (30.44 * SECONDS_IN_A_DAY)`,
the float product 30.44 * 86400 = 2630016.0 truncated to int. -/

def SECONDS_IN_A_MONTH : Nat := 2630016

/-- `btd_is_empty` from btd-utils.c: NULL or empty string.  NULL-ness is
modelled at call sites via `Option Str`; on a present string this is
emptiness. -/

def btd_is_empty (s : Str) : Bool := s.isEmpty

/-- `btd_is_empty` applied to a possibly-NULL string. -/

def btd_is_empty_opt : Option Str → Bool
  | none => true
  | some s => btd_is_empty s

/-- `g_ascii_isspace`: the six ASCII whitespace characters of the C locale. -/

def g_ascii_isspace (c : Char) : Bool :=
  c = ' ' ∨ c = '\t' ∨ c = '\n' ∨ c = '\x0b' ∨ c = '\x0c' ∨ c = '\r'

/-- `g_strstrip`: remove leading and trailing ASCII whitespace in place. -/

def g_strstrip (s : Str) : Str :=
  ((s.dropWhile g_ascii_isspace).reverse.dropWhile g_ascii_isspace).reverse

/-- `g_ascii_isdigit`. -/

def g_ascii_isdigit (c : Char) : Bool := '0' ≤ c ∧ c ≤ '9'

/-- Numeric value of the maximal leading digit run, for `g_ascii_strtoll`. -/

def asciiDigitsVal : Str → Nat → Nat
  | [], acc => acc
  | c :: cs, acc =>
    if g_ascii_isdigit c then asciiDigitsVal cs (acc * 10 + (c.toNat - 48)) else acc

/-- `g_ascii_strtoll (str, NULL, 10)`: skip leading C-locale whitespace, read an
optional sign and a maximal digit run (0 if there are no digits), clamping to
the `gint64` range on overflow. -/

def g_ascii_strtoll (s : Str) : Int :=
  let s1 := s.dropWhile g_ascii_isspace
  match s1 with
  | '-' :: rest => -(min (asciiDigitsVal rest 0) (2 ^ 63) : Nat)
  | '+' :: rest => (min (asciiDigitsVal rest 0) (2 ^ 63 - 1) : Nat)
  | rest => (min (asciiDigitsVal rest 0) (2 ^ 63 - 1) : Nat)

/-- `btd_parse_duration_string` from btd-utils.c.  The result is the `gulong`
(64-bit unsigned) product of the parsed value and the suffix multiplier. -/

def btd_parse_duration_string (s : Str) : Nat :=
  if btd_is_empty s then 0
  else
    let suffix := s.getLastD ' '
    let value := g_ascii_strtoll s
    if value ≤ 0 then 0
    else
      if suffix = 'h' then value.toNat * SECONDS_IN_AN_HOUR % 2 ^ 64
      else if suffix = 'd' then value.toNat * SECONDS_IN_A_DAY % 2 ^ 64
      else if suffix = 'w' then value.toNat * SECONDS_IN_A_WEEK % 2 ^ 64
      else if suffix = 'M' then value.toNat * SECONDS_IN_A_MONTH % 2 ^ 64
      else if g_ascii_isdigit suffix then value.toNat * SECONDS_IN_AN_HOUR % 2 ^ 64
      else 0

/-- Find the leftmost occurrence of the two-character `{{` separator: returns
the text before it and the text after it, or `none`.  This is the scanning
that `g_strsplit (template, "\x7b\x7b", -1)` performs for each split. -/

def findBraceSep : Str → Option (Str × Str)
  | [] => none
  | [_] => none
  | c :: c2 :: rest =>
    if c = lbrace ∧ c2 = lbrace then some ([], rest)
    else (findBraceSep (c2 :: rest)).map (fun pq => (c :: pq.1, pq.2))

/-- Repeated splitting on `{{`, leftmost first.  The fuel argument makes the
recursion structural; it is instantiated with the string length, which bounds
the number of splits. -/

def braceSplitGo : Nat → Str → List Str
  | 0, s => [s]
  | fuel + 1, s =>
    match findBraceSep s with
    | none => [s]
    | some pq => pq.1 :: braceSplitGo fuel pq.2

/-- `g_strsplit (s, "\x7b\x7b", -1)`; the empty string yields the empty
vector, and no returned part contains the separator. -/

def g_strsplit_braces (s : Str) : List Str :=
  if s = [] then [] else braceSplitGo s.length s

/-- Joining split parts with the separator restored. -/

def reassembleParts : List Str → Str
  | [] => []
  | [p] => p
  | p :: ps => p ++ [lbrace, lbrace] ++ reassembleParts ps

/-- The inner matching loop of `btd_render_template`: the first key/value pair
(in argument order) whose `key ++ "\x7d\x7d"` is a prefix of the part. -/

def findPair (pairs : List (Str × Str)) (part : Str) : Option (Str × Str) :=
  pairs.find? (fun kv => (kv.1 ++ [rbrace, rbrace]).isPrefixOf part)

/-- One iteration of the part-rewriting loop of `btd_render_template`: a
matched part is replaced by the value followed by the text after the token;
an unmatched part keeps its `{{` (except for the part at index 0). -/

def renderPart (pairs : List (Str × Str)) (isFirst : Bool) (part : Str) : Str :=
  match findPair pairs part with
  | some kv => kv.2 ++ part.drop (kv.1.length + 2)
  | none => if isFirst then part else [lbrace, lbrace] ++ part

/-- `btd_render_template` from btd-utils.c, with the NULL-terminated varargs
already collected into a pair list (NULL values already replaced by `""`, as
the C loop does).  The `key1 == NULL` shortcut returns the template unchanged,
which is what the general path computes for an empty pair list. -/

def btd_render_template (t : Str) (pairs : List (Str × Str)) : Str :=
  match g_strsplit_braces t with
  | [] => []
  | p0 :: rest =>
    renderPart pairs true p0 ++ (rest.map (renderPart pairs false)).flatten

/-- No part of the `{{`-split of `s` starts with a known `key\x7d\x7d` token,
i.e. a render of `s` performs no substitution.  This is the formal reading of
the specification's "once all known tokens are resolved". -/

def noPendingToken (s : Str) (pairs : List (Str × Str)) : Prop :=
  ∀ p ∈ g_strsplit_braces s, findPair pairs p = none

instance (s : Str) (pairs : List (Str × Str)) : Decidable (noPendingToken s pairs) :=
  inferInstanceAs (Decidable (∀ p ∈ g_strsplit_braces s, findPair pairs p = none))

/-- A `\x7b\x7bkey\x7d\x7d` placeholder token, for building template strings. -/

def tok (k : String) : Str := [lbrace, lbrace] ++ k.data ++ [rbrace, rbrace]

/-- `gint64`-to-string formatting (`%ld` of `g_strdup_printf`). -/

def gint64_to_chars (n : Int) : Str :=
  if n < 0 then '-' :: Nat.toDigits 10 n.natAbs else Nat.toDigits 10 n.toNat

/-- One entry of the `device-stats` JSON array of `btrfs device stats`. -/

structure BtdDeviceStat where
  device : Str
  devid : Str
  write_io_errs : Int
  read_io_errs : Int
  flush_io_errs : Int
  corruption_errs : Int
  generation_errs : Int
deriving DecidableEq

/-- The per-device counter sum computed inside the loop of
`btd_parse_btrfs_device_stats`: the five `gint64` members are summed and
assigned to the `guint64` local `total_errors` (reduced mod 2^64). -/

def deviceStatTotal (d : BtdDeviceStat) : Int :=
  (d.write_io_errs + d.read_io_errs + d.flush_io_errs + d.corruption_errs
    + d.generation_errs) % (2 ^ 64 : Int)

/-- The Issue Report block appended for a device with a non-zero counter sum. -/

def deviceIssueBlock (d : BtdDeviceStat) : Str :=
  ("Device: ").data ++ d.device ++ ('\n' :: ("Devid:  ").data) ++ d.devid
    ++ ('\n' :: ("Write IO Errors: ").data) ++ gint64_to_chars d.write_io_errs
    ++ ('\n' :: ("Read IO Errors:  ").data) ++ gint64_to_chars d.read_io_errs
    ++ ('\n' :: ("Flush IO Errors: ").data) ++ gint64_to_chars d.flush_io_errs
    ++ ('\n' :: ("Corruption Errors: ").data) ++ gint64_to_chars d.corruption_errs
    ++ ('\n' :: ("Generation Errors: ").data) ++ gint64_to_chars d.generation_errs
    ++ ['\n', '\n']

/-- The loop of `btd_parse_btrfs_device_stats`: threads the intro text, the
issue text and the (re-assigned, not accumulated) `total_errors` local. -/

def deviceStatsLoop (st : Str × Str × Int) (d : BtdDeviceStat) : Str × Str × Int :=
  let total := deviceStatTotal d
  let intro := st.1 ++ ("  • ").data ++ d.device ++ ['\n']
  if total = 0 then (intro, st.2.1, total)
  else (intro, st.2.1 ++ deviceIssueBlock d, total)

/-- `btd_parse_btrfs_device_stats` from btd-filesystem.c: returns the report
text and the value left in the caller's `errors_count` out-parameter (0 when
the array is empty, since `run_stats` initialises it to 0).  The final
`g_string_truncate (len - 2)` removes two bytes; both possible report tails
(`"\n\n"` after an issue block, `"d\n"` after the No-errors line) are ASCII,
so dropping two characters models dropping two bytes. -/

def btd_parse_btrfs_device_stats (arr : List BtdDeviceStat) : Str × Int :=
  let init : Str × Str × Int := (("Registered Devices:\n").data, ("Issue Report:\n").data, 0)
  let st := arr.foldl deviceStatsLoop init
  let issues := if st.2.2 = 0 then st.2.1 ++ ("  • No errors found\n").data else st.2.1
  let full := st.1 ++ ['\n'] ++ issues
  (full.take (full.length - 2), st.2.2)

/-- Modelled from the spec: the derived scalar `total_errors` is "the sum
across all entries and counters" of the device-stats array. -/

def specTotalErrors (arr : List BtdDeviceStat) : Int :=
  (arr.map (fun d => d.write_io_errs + d.read_io_errs + d.flush_io_errs
    + d.corruption_errs + d.generation_errs)).sum

/-- Device-stats array on which the code and the claim diverge: the first
device carries five write errors, the second is clean. -/

def failingDeviceStats : List BtdDeviceStat :=
  [⟨("/dev/vda").data, ("1").data, 5, 0, 0, 0, 0⟩,
   ⟨("/dev/vdb").data, ("2").data, 0, 0, 0, 0, 0⟩]

/-- `BtdFilesystem` from btd-filesystem.c: an active Btrfs mountpoint. -/

structure BtdFilesystem where
  device_name : Str
  devno : Nat
  mountpoint : Str
deriving DecidableEq

/-- `btd_filesystem_compare` from btd-scheduler.c, as the ordering relation it
induces: `g_strcmp0` on the mountpoints (byte-wise UTF-8 order, which agrees
with the code-point order of the decoded `List Char`). -/

def btd_filesystem_compare (a b : BtdFilesystem) : Prop := a.mountpoint ≤ b.mountpoint

instance : DecidableRel btd_filesystem_compare :=
  fun a b => inferInstanceAs (Decidable (a.mountpoint ≤ b.mountpoint))

instance : IsTotal BtdFilesystem btd_filesystem_compare :=
  ⟨fun a b => le_total a.mountpoint b.mountpoint⟩

instance : IsTrans BtdFilesystem btd_filesystem_compare :=
  ⟨fun _ _ _ hab hbc => le_trans hab hbc⟩

/-- The `g_ptr_array_sort (priv->mountpoints, btd_filesystem_compare)` call of
`btd_scheduler_run`. -/

def btd_sort_mounts (mounts : List BtdFilesystem) : List BtdFilesystem :=
  List.insertionSort btd_filesystem_compare mounts

/-- The `known_devices` deduplication loop of `btd_scheduler_run`: keep a
mount only when its device number has not been seen yet. -/

def btd_dedup_mounts : List Nat → List BtdFilesystem → List BtdFilesystem
  | _, [] => []
  | seen, m :: rest =>
    if m.devno ∈ seen then btd_dedup_mounts seen rest
    else m :: btd_dedup_mounts (m.devno :: seen) rest

/-- `BtdBtrfsAction` from btd-fs-record.h (the three members the scheduler's
action table uses). -/

inductive BtdBtrfsAction
  | stats
  | scrub
  | balance
deriving DecidableEq

/-- `btd_btrfs_action_to_string` from btd-fs-record.c. -/

def btd_btrfs_action_to_string : BtdBtrfsAction → Str
  | .stats => ("stats").data
  | .scrub => ("scrub").data
  | .balance => ("balance").data

/-- The `allow_on_battery` column of the `action_fn` table in
`btd_scheduler_run_for_mount`. -/

def allow_on_battery : BtdBtrfsAction → Bool
  | .stats => true
  | .scrub => false
  | .balance => false

/-- The `GKeyFile` state of a `BtdFsRecord`, as an association list from
(group, key) to integer value; the most recent setting shadows older
entries, which models `g_key_file_set_uint64` replacement. -/

abbrev BtdFsRecord := List ((Str × Str) × Int)

/-- `btd_fs_record_get_value_int`: `g_key_file_get_int64` with the given
default on a missing key. -/

def btd_fs_record_get_value_int (r : BtdFsRecord) (group key : Str) (dflt : Int) : Int :=
  match r.find? (fun e => decide (e.1 = (group, key))) with
  | some e => e.2
  | none => dflt

/-- `btd_fs_record_set_value_int`. -/

def btd_fs_record_set_value_int (r : BtdFsRecord) (group key : Str) (v : Int) : BtdFsRecord :=
  ((group, key), v) :: r

/-- `btd_fs_record_get_last_action_time`: the `times.<action>` key, 0 when
absent (`g_key_file_get_int64` with a NULL error returns 0). -/

def btd_fs_record_get_last_action_time (r : BtdFsRecord) (a : BtdBtrfsAction) : Int :=
  btd_fs_record_get_value_int r ("times").data (btd_btrfs_action_to_string a) 0

/-- `btd_fs_record_set_last_action_time_now`: stores `time (NULL)` — the wall
clock at the moment of the call, passed here as the explicit `now` oracle. -/

def btd_fs_record_set_last_action_time_now (r : BtdFsRecord) (a : BtdBtrfsAction)
    (now : Int) : BtdFsRecord :=
  btd_fs_record_set_value_int r ("times").data (btd_btrfs_action_to_string a) now

/-- `btd_fs_record_load`: an existing file is parsed (a parse failure reports
an error and leaves the fresh key file empty); an absent file marks the record
new and pre-seeds the last-run times of every non-Stats action with the
current wall clock (`now_load`).  Returns (record, is_new, load_ok). -/

def btd_fs_record_load (file_exists load_fails : Bool) (file_state : BtdFsRecord)
    (now_load : Int) : BtdFsRecord × Bool × Bool :=
  if file_exists then
    if load_fails then ([], false, false) else (file_state, false, true)
  else
    (btd_fs_record_set_last_action_time_now
      (btd_fs_record_set_last_action_time_now [] .scrub now_load) .balance now_load,
     true, true)

/-- The scheduler's `GKeyFile` configuration, as an association list from
(group, key) to string value. -/

abbrev BtdConfig := List ((Str × Str) × Str)

/-- `g_key_file_get_string` on the configuration. -/

def btd_config_get_string (c : BtdConfig) (group key : Str) : Option Str :=
  (c.find? (fun e => decide (e.1 = (group, key)))).map (fun e => e.2)

/-- The loaded scheduler state (`BtdSchedulerPrivate` after a successful
`btd_scheduler_load`): parsed configuration, the reference time captured at
load (current wall time minus 60 seconds), and the default intervals resolved
from the `default` config section with built-in fallbacks. -/

structure BtdScheduler where
  config : BtdConfig
  reference_time : Int
  default_intervals : BtdBtrfsAction → Nat

/-- `btd_get_interval_key`. -/

def btd_get_interval_key (a : BtdBtrfsAction) : Str :=
  btd_btrfs_action_to_string a ++ ("_interval").data

/-- `btd_scheduler_get_config_duration`: parse the configured string, or use
the caller's default when the key is absent. -/

def btd_scheduler_get_config_duration (sched : BtdScheduler) (group key : Str)
    (default_value : Nat) : Nat :=
  match btd_config_get_string sched.config group key with
  | none => default_value
  | some v => btd_parse_duration_string v

/-- `btd_scheduler_get_config_duration_for_action`: the mountpoint section's
`<action>_interval`, falling back to the resolved default interval. -/

def btd_scheduler_get_config_duration_for_action (sched : BtdScheduler)
    (bfs : BtdFilesystem) (a : BtdBtrfsAction) : Nat :=
  btd_scheduler_get_config_duration sched bfs.mountpoint (btd_get_interval_key a)
    (sched.default_intervals a)

/-- `btd_scheduler_get_config_value`: mountpoint section, then the `default`
section, then the caller's default. -/

def btd_scheduler_get_config_value (sched : BtdScheduler) (bfs : Option BtdFilesystem)
    (key : Str) (default_value : Option Str) : Option Str :=
  match bfs with
  | none => (btd_config_get_string sched.config ("default").data key) <|> default_value
  | some fs =>
    (btd_config_get_string sched.config fs.mountpoint key)
      <|> (btd_config_get_string sched.config ("default").data key)
      <|> default_value

/-- The `(time_t)` cast applied to a `gulong` interval in
`btd_scheduler_run_for_mount` (two's-complement reinterpretation). -/

def toTimeT (n : Nat) : Int :=
  if n % 2 ^ 64 < 2 ^ 63 then (n % 2 ^ 64 : Int) else (n % 2 ^ 64 : Int) - 2 ^ 64

/-- Oracle for the external effects one `btd_scheduler_run_for_mount` call can
observe: battery probe answers, the `btrfs device stats` outcome (report and
`errors_count` on success), the `btrfs fi df` outcome, subprocess successes,
wall-clock reads, and the state file backing the record. -/

structure BtdMountEnv where
  on_battery : BtdBtrfsAction → Bool
  stats_result : Option (Str × Int)
  usage_result : Option Str
  sendmail_ok : Bool
  scrub_ok : Bool
  balance_ok : Bool
  now_at : BtdBtrfsAction → Int
  now_load : Int
  file_exists : Bool
  load_fails : Bool
  file_state : BtdFsRecord
  save_ok : Bool
  template_text : Str
  hostname : Str
  date_time : Str

/-- Result of `btd_scheduler_send_error_mail`: the updated record, the boolean
return value, whether `sendmail` was actually engaged (rather than the send
being suppressed by the rate limiter), and the rendered mail body. -/

structure BtdSendMailOutcome where
  record : BtdFsRecord
  ok : Bool
  spawned : Bool
  body : Str

/-- `btd_scheduler_send_error_mail` from btd-scheduler.c.  The embedded
GResource template is compile-time data and always present, so the
`template_bytes == NULL` bug branch is unreachable and not modelled. -/

def btd_scheduler_send_error_mail (sched : BtdScheduler) (env : BtdMountEnv)
    (bfs : BtdFilesystem) (record : BtdFsRecord) (new_errors_found : Bool)
    (issue_report : Str) : BtdSendMailOutcome :=
  let time_last_mail :=
    btd_fs_record_get_value_int record ("messages").data ("issue_mail_sent").data 0
  if new_errors_found = false ∧
      sched.reference_time - time_last_mail < (SECONDS_IN_AN_HOUR : Int) * 20 then
    ⟨record, true, false, []⟩
  else
    let mail_from :=
      (btd_scheduler_get_config_value sched (some bfs) ("mail_from").data none).getD
        (("btrfsd").data)
    let fs_usage := env.usage_result.getD (("⚠ Failed to read usage data.").data)
    let mail_body := btd_render_template env.template_text
      [(("mail_from").data, mail_from), (("date_time").data, env.date_time),
       (("hostname").data, env.hostname), (("mountpoint").data, bfs.mountpoint),
       (("issue_report").data, issue_report), (("fs_usage").data, fs_usage)]
    if env.sendmail_ok then
      ⟨btd_fs_record_set_value_int record ("messages").data ("issue_mail_sent").data
          sched.reference_time,
       true, true, mail_body⟩
    else ⟨record, false, true, mail_body⟩

/-- Result of an action handler: the updated record and the boolean that
`btd_scheduler_run_for_mount` interprets as "the action was launched". -/

structure BtdHandlerOutcome where
  record : BtdFsRecord
  launched : Bool

/-- `btd_scheduler_run_stats` from btd-scheduler.c. -/

def btd_scheduler_run_stats (sched : BtdScheduler) (env : BtdMountEnv)
    (bfs : BtdFilesystem) (record : BtdFsRecord) : BtdHandlerOutcome :=
  let mail_address :=
    (btd_scheduler_get_config_value sched (some bfs) ("mail_address").data none).map
      g_strstrip
  match env.stats_result with
  | none => ⟨record, false⟩
  | some (issue_report, error_count) =>
    if error_count = 0 then
      ⟨btd_fs_record_set_value_int record ("errors").data ("total").data 0, true⟩
    else
      let prev_error_count :=
        btd_fs_record_get_value_int record ("errors").data ("total").data 0
      let r1 := btd_fs_record_set_value_int record ("errors").data ("total").data error_count
      let r2 :=
        if error_count > prev_error_count ∨
            sched.reference_time -
                btd_fs_record_get_value_int r1 ("messages").data ("broadcast_sent").data 0 >
              (SECONDS_IN_AN_HOUR : Int) * 6 then
          btd_fs_record_set_value_int r1 ("messages").data ("broadcast_sent").data
            sched.reference_time
        else r1
      if btd_is_empty_opt mail_address then ⟨r2, true⟩
      else
        let m := btd_scheduler_send_error_mail sched env bfs r2
          (decide (error_count > prev_error_count)) issue_report
        ⟨m.record, m.ok⟩

/-- `btd_scheduler_run_scrub`: launched iff `btrfs scrub start -B` succeeded;
the record is not touched. -/

def btd_scheduler_run_scrub (env : BtdMountEnv) (record : BtdFsRecord) : BtdHandlerOutcome :=
  ⟨record, env.scrub_ok⟩

/-- `btd_scheduler_run_balance`: launched iff `btrfs balance start` succeeded;
the record is not touched. -/

def btd_scheduler_run_balance (env : BtdMountEnv) (record : BtdFsRecord) : BtdHandlerOutcome :=
  ⟨record, env.balance_ok⟩

/-- The `func` column of the `action_fn` table. -/

def btd_scheduler_handler (a : BtdBtrfsAction) (sched : BtdScheduler) (env : BtdMountEnv)
    (bfs : BtdFilesystem) (record : BtdFsRecord) : BtdHandlerOutcome :=
  match a with
  | .stats => btd_scheduler_run_stats sched env bfs record
  | .scrub => btd_scheduler_run_scrub env record
  | .balance => btd_scheduler_run_balance env record

/-- The record plus the bookkeeping of one pass of the action loop: which
handlers were invoked and which reported "launched". -/

structure BtdPipelineState where
  record : BtdFsRecord
  invoked : List BtdBtrfsAction
  launched : List BtdBtrfsAction

/-- One iteration of the action loop of `btd_scheduler_run_for_mount`:
interval-0 skip, due check against the reference time, battery guard, handler
invocation, and the conditional `set_last_action_time_now`. -/

def btd_scheduler_run_action (sched : BtdScheduler) (env : BtdMountEnv)
    (bfs : BtdFilesystem) (st : BtdPipelineState) (a : BtdBtrfsAction) : BtdPipelineState :=
  let interval_time := toTimeT (btd_scheduler_get_config_duration_for_action sched bfs a)
  if interval_time = 0 then st
  else
    let last_time := btd_fs_record_get_last_action_time st.record a
    if sched.reference_time - last_time > interval_time then
      if allow_on_battery a = false ∧ env.on_battery a = true then st
      else
        let h := btd_scheduler_handler a sched env bfs st.record
        if h.launched then
          ⟨btd_fs_record_set_last_action_time_now h.record a (env.now_at a),
           st.invoked ++ [a], st.launched ++ [a]⟩
        else ⟨h.record, st.invoked ++ [a], st.launched⟩
    else st

/-- The `action_fn` table order: Stats, Scrub, Balance. -/

def btd_action_table : List BtdBtrfsAction := [.stats, .scrub, .balance]

/-- The full action loop of `btd_scheduler_run_for_mount`, starting from the
loaded record. -/

def btd_scheduler_run_actions (sched : BtdScheduler) (env : BtdMountEnv)
    (bfs : BtdFilesystem) (record : BtdFsRecord) : BtdPipelineState :=
  btd_action_table.foldl (btd_scheduler_run_action sched env bfs) ⟨record, [], []⟩

/-- Result of `btd_scheduler_run_for_mount`: the record handed to
`btd_fs_record_save`, the invocation traces, whether the save succeeded, and
the C function's return value. -/

structure BtdMountRunResult where
  record : BtdFsRecord
  invoked : List BtdBtrfsAction
  launched : List BtdBtrfsAction
  saved : Bool
  result : Bool

/-- `btd_scheduler_run_for_mount` from btd-scheduler.c: load the record (a
load failure only logs), run all actions, save the record (a save failure
only logs), and return TRUE unconditionally. -/

def btd_scheduler_run_for_mount (sched : BtdScheduler) (env : BtdMountEnv)
    (bfs : BtdFilesystem) : BtdMountRunResult :=
  let l := btd_fs_record_load env.file_exists env.load_fails env.file_state env.now_load
  let st := btd_scheduler_run_actions sched env bfs l.1
  ⟨st.record, st.invoked, st.launched, env.save_ok, true⟩

/-- Result of `btd_scheduler_run`: the boolean return value, the mounts for
which the per-mount pipeline ran (in execution order), and their results. -/

structure BtdSchedulerRunResult where
  ok : Bool
  processed : List BtdFilesystem
  results : List BtdMountRunResult

/-- `btd_scheduler_run` from btd-scheduler.c, for a loaded scheduler: root
check, empty-mount-list shortcut, sort by mountpoint, deduplicate by device
number, and run the per-mount pipeline on each representative. -/

def btd_scheduler_run (sched : BtdScheduler) (mounts : List BtdFilesystem)
    (is_root : Bool) (envAt : BtdFilesystem → BtdMountEnv) : BtdSchedulerRunResult :=
  if is_root = false then ⟨false, [], []⟩
  else if mounts.isEmpty then ⟨true, [], []⟩
  else
    let chosen := btd_dedup_mounts [] (btd_sort_mounts mounts)
    ⟨true, chosen, chosen.map (fun bfs => btd_scheduler_run_for_mount sched (envAt bfs) bfs)⟩

/-- Substring check, used to state facts about generated report texts. -/

def containsSub (pat s : Str) : Bool := s.tails.any (fun t => pat.isPrefixOf t)

/-- A mounted filesystem used for concrete scenarios. -/

def fsA : BtdFilesystem := ⟨("/dev/sda1").data, 42, ("/mnt/a").data⟩

/-- A loaded scheduler with empty configuration, reference time 1000 and a
500-second default interval for every action. -/

def schedC2 : BtdScheduler := ⟨[], 1000, fun _ => 500⟩

/-- Oracle for a run in which stats fails to read, scrub succeeds (with the
wall clock at 2000 when its timestamp is recorded) and balance fails. -/

def envC2 : BtdMountEnv :=
  { on_battery := fun _ => false
    stats_result := none
    usage_result := none
    sendmail_ok := false
    scrub_ok := true
    balance_ok := false
    now_at := fun _ => 2000
    now_load := 0
    file_exists := true
    load_fails := false
    file_state := []
    save_ok := true
    template_text := []
    hostname := []
    date_time := [] }

/-- The battery oracle reporting battery power throughout. -/

def envBat : BtdMountEnv := { envC2 with on_battery := fun _ => true }

/-- A scheduler with reference time 1000000 (and no configuration). -/

def schedMail : BtdScheduler := ⟨[], 1000000, fun _ => 500⟩

/-- A record whose last issue mail was sent 10 hours before `schedMail`'s
reference time. -/

def recordMail : BtdFsRecord :=
  [((("messages").data, ("issue_mail_sent").data), 964000)]

/-- A scheduler whose balance interval is 0 (the built-in `never` default). -/

def schedZero : BtdScheduler :=
  ⟨[], 1000, fun a => match a with | .balance => 0 | _ => 500⟩

/-- The second and third mounts of the specification's dedup scenario. -/

def fsB : BtdFilesystem := ⟨("/dev/sda1").data, 42, ("/mnt/b").data⟩

/-- Third mount of the dedup scenario: a distinct device number. -/

def fsC : BtdFilesystem := ⟨("/dev/sdb1").data, 77, ("/mnt/c").data⟩

/-- The specification's dedup scenario mount set (in unsorted order). -/

def exampleMounts : List BtdFilesystem := [fsB, fsC, fsA]

/-- The record of the stats handler after storing `errors.total` (`r1` in the
proofs): the first `btd_fs_record_set_value_int` of `btd_scheduler_run_stats`
for a non-zero count. -/

def statsR1 (record : BtdFsRecord) (n : Int) : BtdFsRecord :=
  btd_fs_record_set_value_int record ("errors").data ("total").data n

/-- The stats handler's record after the conditional broadcast step (`r2` in
the proofs). -/

def statsR2 (sched : BtdScheduler) (record : BtdFsRecord) (n : Int) : BtdFsRecord :=
  if n > btd_fs_record_get_value_int record ("errors").data ("total").data 0 ∨
      sched.reference_time -
          btd_fs_record_get_value_int (statsR1 record n) ("messages").data
            ("broadcast_sent").data 0 >
        (SECONDS_IN_AN_HOUR : Int) * 6 then
    btd_fs_record_set_value_int (statsR1 record n) ("messages").data ("broadcast_sent").data
      sched.reference_time
  else statsR1 record n

/-- A scheduler whose configuration sets a mail address for /mnt/a. -/

def schedC10 : BtdScheduler :=
  ⟨[((("/mnt/a").data, ("mail_address").data), ("ops@example.org").data)], 1000, fun _ => 500⟩

/-- Oracle for a run whose stats read finds three errors and whose
`sendmail` invocation fails. -/

def envC10 : BtdMountEnv :=
  { envC2 with stats_result := some (("R").data, 3), sendmail_ok := false }

theorem findBraceSep_length {s p q : Str} (h : findBraceSep s = some (p, q)) :
    q.length + 2 ≤ s.length := by
  induction s generalizing p q with
  | nil => simp [findBraceSep] at h
  | cons c cs ih =>
    cases cs with
    | nil => simp [findBraceSep] at h
    | cons c2 rest =>
      rw [findBraceSep] at h
      split at h
      · simp only [Option.some.injEq, Prod.mk.injEq] at h
        obtain ⟨h1, h2⟩ := h
        subst h2
        simp
      · cases hf : findBraceSep (c2 :: rest) with
        | none => rw [hf] at h; simp at h
        | some pq =>
          rw [hf] at h
          simp only [Option.map_some', Option.some.injEq, Prod.mk.injEq] at h
          obtain ⟨h1, h2⟩ := h
          subst h2
          have := ih (p := pq.1) (q := pq.2) (by rw [hf])
          simp only [List.length_cons] at this ⊢
          omega

theorem findBraceSep_eq {s p q : Str} (h : findBraceSep s = some (p, q)) :
    s = p ++ [lbrace, lbrace] ++ q := by
  induction s generalizing p q with
  | nil => simp [findBraceSep] at h
  | cons c cs ih =>
    cases cs with
    | nil => simp [findBraceSep] at h
    | cons c2 rest =>
      rw [findBraceSep] at h
      split at h
      · rename_i hcc
        simp only [Option.some.injEq, Prod.mk.injEq] at h
        obtain ⟨h1, h2⟩ := h
        subst h1
        subst h2
        simp [hcc.1, hcc.2]
      · cases hf : findBraceSep (c2 :: rest) with
        | none => rw [hf] at h; simp at h
        | some pq =>
          rw [hf] at h
          simp only [Option.map_some', Option.some.injEq, Prod.mk.injEq] at h
          obtain ⟨h1, h2⟩ := h
          subst h1
          subst h2
          have := ih (p := pq.1) (q := pq.2) (by rw [hf])
          simp only [List.cons_append, List.append_assoc] at this ⊢
          rw [this]

theorem braceSplitGo_ne_nil (fuel : Nat) (s : Str) : braceSplitGo fuel s ≠ [] := by
  cases fuel with
  | zero => simp [braceSplitGo]
  | succ n =>
    rw [braceSplitGo]
    cases findBraceSep s <;> simp

theorem reassembleParts_cons {p : Str} {ps : List Str} (h : ps ≠ []) :
    reassembleParts (p :: ps) = p ++ [lbrace, lbrace] ++ reassembleParts ps := by
  cases ps with
  | nil => exact absurd rfl h
  | cons q qs => rfl

theorem reassemble_braceSplitGo {fuel : Nat} {s : Str} (h : s.length ≤ fuel) :
    reassembleParts (braceSplitGo fuel s) = s := by
  induction fuel generalizing s with
  | zero => simp [braceSplitGo, reassembleParts]
  | succ n ih =>
    rw [braceSplitGo]
    cases hf : findBraceSep s with
    | none => simp [reassembleParts]
    | some pq =>
      have hlen := findBraceSep_length (p := pq.1) (q := pq.2) (by rw [hf])
      have heq := findBraceSep_eq (p := pq.1) (q := pq.2) (by rw [hf])
      rw [reassembleParts_cons (braceSplitGo_ne_nil n pq.2)]
      rw [ih (by omega)]
      exact heq.symm

theorem reassemble_g_strsplit_braces (s : Str) :
    reassembleParts (g_strsplit_braces s) = s := by
  by_cases hs : s = []
  · simp [g_strsplit_braces, hs, reassembleParts]
  · rw [g_strsplit_braces, if_neg hs]
    exact reassemble_braceSplitGo le_rfl

theorem reassemble_as_join (p0 : Str) (rest : List Str) :
    reassembleParts (p0 :: rest) =
      p0 ++ (rest.map (fun p => [lbrace, lbrace] ++ p)).flatten := by
  induction rest generalizing p0 with
  | nil => simp [reassembleParts]
  | cons q qs ih =>
    rw [reassembleParts_cons (by simp)]
    rw [ih q]
    simp

theorem render_template_no_token {s : Str} {pairs : List (Str × Str)}
    (h : noPendingToken s pairs) : btd_render_template s pairs = s := by
  unfold btd_render_template
  cases hsplit : g_strsplit_braces s with
  | nil =>
    have : s = [] := by
      by_contra hs
      have := braceSplitGo_ne_nil s.length s
      rw [g_strsplit_braces, if_neg hs] at hsplit
      exact this hsplit
    simp [this]
  | cons p0 rest =>
    have h0 : findPair pairs p0 = none := h p0 (by rw [hsplit]; exact List.mem_cons_self _ _)
    have hrest : ∀ p ∈ rest, findPair pairs p = none := fun p hp =>
      h p (by rw [hsplit]; exact List.mem_cons_of_mem _ hp)
    have hmap : (rest.map (renderPart pairs false)) = rest.map (fun p => [lbrace, lbrace] ++ p) := by
      apply List.map_congr_left
      intro p hp
      simp [renderPart, hrest p hp]
    show renderPart pairs true p0 ++ (rest.map (renderPart pairs false)).flatten = s
    rw [hmap, renderPart, h0, if_pos rfl, ← reassemble_as_join, ← hsplit]
    exact reassemble_g_strsplit_braces s

theorem btd_fs_record_get_set (r : BtdFsRecord) (g k : Str) (v : Int) (g' k' : Str) (d : Int) :
    btd_fs_record_get_value_int (btd_fs_record_set_value_int r g k v) g' k' d =
      if (g', k') = (g, k) then v else btd_fs_record_get_value_int r g' k' d := by
  unfold btd_fs_record_get_value_int btd_fs_record_set_value_int
  by_cases h : ((g', k') : Str × Str) = (g, k)
  · rw [if_pos h, List.find?_cons_of_pos _ (by simp [h])]
  · rw [if_neg h, List.find?_cons_of_neg _ ?hne]
    case hne =>
      simp only [decide_eq_true_eq]
      intro hc
      exact h hc.symm

theorem digit_not_space {a : Char} (h : g_ascii_isdigit a = true) :
    g_ascii_isspace a = false := by
  simp only [g_ascii_isspace, decide_eq_false_iff_not]
  rintro (rfl | rfl | rfl | rfl | rfl | rfl) <;> exact absurd h (by decide)

theorem strtoll_head_digit (a : Char) (u : Str) (h : g_ascii_isdigit a = true) :
    g_ascii_strtoll (a :: u) = ((min (asciiDigitsVal (a :: u) 0) (2 ^ 63 - 1) : Nat) : Int) := by
  unfold g_ascii_strtoll
  rw [List.dropWhile_cons, digit_not_space h]
  simp only [Bool.false_eq_true, if_false]
  split
  · rename_i heq
    rw [List.cons.injEq] at heq
    rw [heq.1] at h
    exact absurd h (by decide)
  · rename_i heq
    rw [List.cons.injEq] at heq
    rw [heq.1] at h
    exact absurd h (by decide)
  · rfl

theorem asciiDigitsVal_append_nondigit (s : Str) (c : Char) (acc : Nat)
    (hs : ∀ ch ∈ s, g_ascii_isdigit ch = true) (hc : g_ascii_isdigit c = false) :
    asciiDigitsVal (s ++ [c]) acc = asciiDigitsVal s acc := by
  induction s generalizing acc with
  | nil => simp [asciiDigitsVal, hc]
  | cons a t ih =>
    have hda := hs a (List.mem_cons_self _ _)
    simp only [List.cons_append, asciiDigitsVal, hda, if_true]
    exact ih _ (fun ch hm => hs ch (List.mem_cons_of_mem _ hm))

theorem getLastD_append_singleton : ∀ (l : Str) (c d : Char), (l ++ [c]).getLastD d = c := by
  intro l
  induction l with
  | nil => intro c d; rfl
  | cons a t ih =>
    intro c d
    rw [List.cons_append, List.getLastD_cons]
    exact ih c a

theorem getLastD_mem : ∀ (l : Str) (d : Char), l ≠ [] → l.getLastD d ∈ l := by
  intro l
  induction l with
  | nil => intro d h; exact absurd rfl h
  | cons a t ih =>
    intro d _
    rw [List.getLastD_cons]
    cases t with
    | nil => simp [List.getLastD]
    | cons b u => exact List.mem_cons_of_mem a (ih a (by simp))

theorem parse_append_suffix (s : Str) (c : Char)
    (hs : ∀ ch ∈ s, g_ascii_isdigit ch = true) (hne : s ≠ [])
    (hpos : 0 < asciiDigitsVal s 0) (hlt : asciiDigitsVal s 0 < 2 ^ 63)
    (hcd : g_ascii_isdigit c = false) :
    btd_parse_duration_string (s ++ [c]) =
      (if c = 'h' then asciiDigitsVal s 0 * SECONDS_IN_AN_HOUR % 2 ^ 64
       else if c = 'd' then asciiDigitsVal s 0 * SECONDS_IN_A_DAY % 2 ^ 64
       else if c = 'w' then asciiDigitsVal s 0 * SECONDS_IN_A_WEEK % 2 ^ 64
       else if c = 'M' then asciiDigitsVal s 0 * SECONDS_IN_A_MONTH % 2 ^ 64
       else 0) := by
  obtain ⟨a, t, rfl⟩ : ∃ a t, s = a :: t := by
    cases s with
    | nil => exact absurd rfl hne
    | cons a t => exact ⟨a, t, rfl⟩
  have hda : g_ascii_isdigit a = true := hs a (List.mem_cons_self _ _)
  have hdv : asciiDigitsVal (a :: (t ++ [c])) 0 = asciiDigitsVal (a :: t) 0 :=
    asciiDigitsVal_append_nondigit (a :: t) c 0 hs hcd
  unfold btd_parse_duration_string
  rw [if_neg (by simp [btd_is_empty])]
  simp only [List.cons_append, List.getLastD_cons, getLastD_append_singleton,
    strtoll_head_digit a (t ++ [c]) hda, hdv]
  rw [min_eq_left (by omega)]
  rw [if_neg (by omega)]
  simp only [Int.toNat_natCast, hcd, Bool.false_eq_true, if_false]

theorem parse_digits_bare (s : Str)
    (hs : ∀ ch ∈ s, g_ascii_isdigit ch = true) (hne : s ≠ [])
    (hpos : 0 < asciiDigitsVal s 0) (hlt : asciiDigitsVal s 0 < 2 ^ 63) :
    btd_parse_duration_string s = asciiDigitsVal s 0 * SECONDS_IN_AN_HOUR % 2 ^ 64 := by
  obtain ⟨a, t, rfl⟩ : ∃ a t, s = a :: t := by
    cases s with
    | nil => exact absurd rfl hne
    | cons a t => exact ⟨a, t, rfl⟩
  have hda : g_ascii_isdigit a = true := hs a (List.mem_cons_self _ _)
  have hsuf : g_ascii_isdigit ((a :: t).getLastD ' ') = true :=
    hs _ (getLastD_mem (a :: t) ' ' hne)
  have hne_h : ¬ (a :: t).getLastD ' ' = 'h' := fun hc => by
    rw [hc] at hsuf; exact absurd hsuf (by decide)
  have hne_d : ¬ (a :: t).getLastD ' ' = 'd' := fun hc => by
    rw [hc] at hsuf; exact absurd hsuf (by decide)
  have hne_w : ¬ (a :: t).getLastD ' ' = 'w' := fun hc => by
    rw [hc] at hsuf; exact absurd hsuf (by decide)
  have hne_M : ¬ (a :: t).getLastD ' ' = 'M' := fun hc => by
    rw [hc] at hsuf; exact absurd hsuf (by decide)
  unfold btd_parse_duration_string
  rw [if_neg (by simp [btd_is_empty])]
  simp only [strtoll_head_digit a t hda]
  rw [min_eq_left (by omega)]
  rw [if_neg (by omega)]
  simp only [Int.toNat_natCast]
  rw [if_neg hne_h, if_neg hne_d, if_neg hne_w, if_neg hne_M, if_pos hsuf]

/-- C6: `btd_parse_duration_string` always yields a non-negative number of
seconds; for every positive all-digit numeral (below the `gint64` clamp) the
suffixes `h`/`d`/`w`/`M` multiply its value by 3600/86400/604800/2630016 in
the 64-bit unsigned result and a bare numeral means hours; unknown suffixes,
non-positive or non-numeric values and the literal `never` yield 0; the
literal examples of the specification (and the per-suffix examples of the
repository's own test suite) are evaluated. -/
theorem duration_parsing_contract :
    (∀ s : Str, 0 ≤ btd_parse_duration_string s)
    ∧ (∀ s : Str, (∀ ch ∈ s, g_ascii_isdigit ch = true) → s ≠ [] →
        0 < asciiDigitsVal s 0 → asciiDigitsVal s 0 < 2 ^ 63 →
        btd_parse_duration_string (s ++ ['h'])
            = asciiDigitsVal s 0 * SECONDS_IN_AN_HOUR % 2 ^ 64
        ∧ btd_parse_duration_string (s ++ ['d'])
            = asciiDigitsVal s 0 * SECONDS_IN_A_DAY % 2 ^ 64
        ∧ btd_parse_duration_string (s ++ ['w'])
            = asciiDigitsVal s 0 * SECONDS_IN_A_WEEK % 2 ^ 64
        ∧ btd_parse_duration_string (s ++ ['M'])
            = asciiDigitsVal s 0 * SECONDS_IN_A_MONTH % 2 ^ 64
        ∧ btd_parse_duration_string s
            = asciiDigitsVal s 0 * SECONDS_IN_AN_HOUR % 2 ^ 64)
    ∧ btd_parse_duration_string ("1h").data = 3600
    ∧ btd_parse_duration_string ("2h").data = 7200
    ∧ btd_parse_duration_string ("3").data = 10800
    ∧ btd_parse_duration_string ("1d").data = 86400
    ∧ btd_parse_duration_string ("4d").data = 345600
    ∧ btd_parse_duration_string ("1w").data = 604800
    ∧ btd_parse_duration_string ("4w").data = 2419200
    ∧ btd_parse_duration_string ("1M").data = 2630016
    ∧ btd_parse_duration_string ("3M").data = 7890048
    ∧ btd_parse_duration_string ("notvalid").data = 0
    ∧ btd_parse_duration_string ("2u").data = 0
    ∧ btd_parse_duration_string ("never").data = 0
    ∧ (∀ s : Str, g_ascii_strtoll s ≤ 0 → btd_parse_duration_string s = 0)
    ∧ (∀ s : Str,
        s.getLastD ' ' ∉ (['h', 'd', 'w', 'M'] : List Char) →
        g_ascii_isdigit (s.getLastD ' ') = false →
        btd_parse_duration_string s = 0) := by
  refine ⟨fun s => Nat.zero_le _, ?_, by decide, by decide, by decide, by decide, by decide,
    by decide, by decide, by decide, by decide, by decide, by decide, by decide, ?_, ?_⟩
  · intro s hs hne hpos hlt
    refine ⟨?_, ?_, ?_, ?_, parse_digits_bare s hs hne hpos hlt⟩
    · rw [parse_append_suffix s 'h' hs hne hpos hlt (by decide)]
      simp
    · rw [parse_append_suffix s 'd' hs hne hpos hlt (by decide)]
      simp
    · rw [parse_append_suffix s 'w' hs hne hpos hlt (by decide)]
      simp
    · rw [parse_append_suffix s 'M' hs hne hpos hlt (by decide)]
      simp
  · intro s h
    unfold btd_parse_duration_string
    split
    · rfl
    · simp [h]
  · intro s hm hd
    simp only [List.mem_cons, List.not_mem_nil, or_false, not_or] at hm
    unfold btd_parse_duration_string
    split
    · rfl
    · simp only [List.getLastD_eq_getLast?] at hm hd
      simp [hm.1, hm.2.1, hm.2.2.1, hm.2.2.2, hd]

theorem duration_parsing_contract_witness :
    btd_parse_duration_string ((("42").data) ++ ['d'])
        = asciiDigitsVal (("42").data) 0 * SECONDS_IN_A_DAY % 2 ^ 64
    ∧ asciiDigitsVal (("42").data) 0 * SECONDS_IN_A_DAY % 2 ^ 64 = 3628800 :=
  ⟨(duration_parsing_contract.2.1 (("42").data) (by decide) (by decide) (by decide)
      (by decide)).2.1,
   by decide⟩

/-- C9 (amended): `btd_render_template` substitutes known `\x7b\x7bkey\x7d\x7d`
tokens (the specification's literal scenario is reproduced), and rendering is
idempotent for every template whose single rendering resolves all known
tokens, i.e. whose rendered result contains no further substitutable token;
without that proviso the law fails, since substituted values can introduce
new tokens. -/
theorem render_template_idempotent_when_resolved :
    (btd_render_template
        (("This is a ").data ++ tok ("key1") ++ (" template\nAll strings need to be ").data
          ++ tok ("action") ++ (" correctly for the ").data ++ tok ("test_name")
          ++ (" to pass.").data)
        [(("key1").data, ("good").data), (("action").data, ("rendered").data),
         (("test_name").data, ("render_template test").data)]
      = ("This is a good template\nAll strings need to be rendered correctly "
          ++ "for the render_template test to pass.").data)
    ∧ ∀ (t : Str) (pairs : List (Str × Str)),
        noPendingToken (btd_render_template t pairs) pairs →
        btd_render_template (btd_render_template t pairs) pairs =
          btd_render_template t pairs :=
  ⟨by decide, fun _ _ h => render_template_no_token h⟩

theorem render_template_idempotent_when_resolved_witness :
    noPendingToken
      (btd_render_template ((("Hello ").data ++ tok ("key1") ++ tok ("nope")))
        [(("key1").data, ("good").data)])
      [(("key1").data, ("good").data)]
    ∧ btd_render_template
        (btd_render_template ((("Hello ").data ++ tok ("key1") ++ tok ("nope")))
          [(("key1").data, ("good").data)])
        [(("key1").data, ("good").data)]
      = btd_render_template ((("Hello ").data ++ tok ("key1") ++ tok ("nope")))
          [(("key1").data, ("good").data)] :=
  ⟨by decide,
    render_template_idempotent_when_resolved.2
      ((("Hello ").data ++ tok ("key1") ++ tok ("nope")))
      [(("key1").data, ("good").data)] (by decide)⟩

/-- C9 (counterexample): with pairs `a ↦ "\x7b\x7bb\x7d\x7d"`, `b ↦ "c"` the
first render of `"\x7b\x7ba\x7d\x7d"` produces a fresh `b` token which the
second render then substitutes, so the unconditional idempotence equation of
the claim is false. -/
theorem render_template_not_idempotent :
    btd_render_template
        (btd_render_template (tok ("a"))
          [(("a").data, tok ("b")), (("b").data, ("c").data)])
        [(("a").data, tok ("b")), (("b").data, ("c").data)]
      ≠ btd_render_template (tok ("a"))
          [(("a").data, tok ("b")), (("b").data, ("c").data)] := by decide

/-- C1 (code bug): in `btd_parse_btrfs_device_stats` the per-device counter
sum overwrites `total_errors` instead of accumulating it, so for the array
`[/dev/vda with 5 write errors, /dev/vdb clean]` the returned `errors_count`
is the last device's 0 rather than the claimed all-device sum 5, and the
report both contains an Issue Report block and ends with the No-errors text
(itself truncated to "No errors foun" by the final two-byte cut). -/
theorem device_stats_total_divergence :
    (btd_parse_btrfs_device_stats failingDeviceStats).2 = 0
    ∧ specTotalErrors failingDeviceStats = 5
    ∧ containsSub (("Write IO Errors: 5").data)
        (btd_parse_btrfs_device_stats failingDeviceStats).1 = true
    ∧ (("No errors foun").data).isSuffixOf
        (btd_parse_btrfs_device_stats failingDeviceStats).1 = true := by
  exact ⟨by decide, by decide, by decide, by decide⟩

/-- C3: `btd_scheduler_send_error_mail` engages `sendmail` iff new errors were
found or at least 20 hours passed since `messages.issue_mail_sent`; otherwise
it returns success with the record untouched; and `issue_mail_sent` is set to
the reference time exactly when the send succeeded. -/
theorem send_error_mail_rate_limit (sched : BtdScheduler) (env : BtdMountEnv)
    (bfs : BtdFilesystem) (record : BtdFsRecord) (new_errors_found : Bool)
    (issue_report : Str) :
    ((btd_scheduler_send_error_mail sched env bfs record new_errors_found
        issue_report).spawned = true ↔
      (new_errors_found = true ∨
        (SECONDS_IN_AN_HOUR : Int) * 20 ≤ sched.reference_time -
          btd_fs_record_get_value_int record ("messages").data ("issue_mail_sent").data 0))
    ∧ ((btd_scheduler_send_error_mail sched env bfs record new_errors_found
          issue_report).spawned = false →
        (btd_scheduler_send_error_mail sched env bfs record new_errors_found
          issue_report).ok = true ∧
        (btd_scheduler_send_error_mail sched env bfs record new_errors_found
          issue_report).record = record)
    ∧ ((btd_scheduler_send_error_mail sched env bfs record new_errors_found
          issue_report).spawned = true → env.sendmail_ok = true →
        (btd_scheduler_send_error_mail sched env bfs record new_errors_found
          issue_report).ok = true ∧
        (btd_scheduler_send_error_mail sched env bfs record new_errors_found
          issue_report).record =
          btd_fs_record_set_value_int record ("messages").data ("issue_mail_sent").data
            sched.reference_time)
    ∧ ((btd_scheduler_send_error_mail sched env bfs record new_errors_found
          issue_report).spawned = true → env.sendmail_ok = false →
        (btd_scheduler_send_error_mail sched env bfs record new_errors_found
          issue_report).ok = false ∧
        (btd_scheduler_send_error_mail sched env bfs record new_errors_found
          issue_report).record = record) := by
  by_cases h1 : new_errors_found = false ∧
      sched.reference_time -
          btd_fs_record_get_value_int record ("messages").data ("issue_mail_sent").data 0 <
        (SECONDS_IN_AN_HOUR : Int) * 20
  · have hm : btd_scheduler_send_error_mail sched env bfs record new_errors_found
        issue_report = ⟨record, true, false, []⟩ := by
      simp only [btd_scheduler_send_error_mail]
      rw [if_pos h1]
    obtain ⟨hn, hlt⟩ := h1
    rw [hm]
    refine ⟨?_, fun _ => ⟨rfl, rfl⟩, ?_, ?_⟩
    · constructor
      · intro hc
        exact absurd hc (by simp)
      · rintro (hc | hc)
        · rw [hn] at hc
          exact absurd hc (by simp)
        · exact absurd hc (not_le.mpr hlt)
    · intro hsp
      exact absurd hsp (by simp)
    · intro hsp
      exact absurd hsp (by simp)
  · have hrhs : new_errors_found = true ∨
        (SECONDS_IN_AN_HOUR : Int) * 20 ≤ sched.reference_time -
          btd_fs_record_get_value_int record ("messages").data ("issue_mail_sent").data 0 := by
      rcases not_and_or.mp h1 with h | h
      · left
        simpa using h
      · right
        exact not_lt.mp h
    by_cases h2 : env.sendmail_ok = true
    · have hsp : (btd_scheduler_send_error_mail sched env bfs record new_errors_found
          issue_report).spawned = true := by
        simp only [btd_scheduler_send_error_mail]
        rw [if_neg h1]
        simp [h2]
      have hok : (btd_scheduler_send_error_mail sched env bfs record new_errors_found
          issue_report).ok = true := by
        simp only [btd_scheduler_send_error_mail]
        rw [if_neg h1]
        simp [h2]
      have hrec : (btd_scheduler_send_error_mail sched env bfs record new_errors_found
          issue_report).record =
          btd_fs_record_set_value_int record ("messages").data ("issue_mail_sent").data
            sched.reference_time := by
        simp only [btd_scheduler_send_error_mail]
        rw [if_neg h1]
        simp [h2]
      refine ⟨by rw [hsp]; simp [hrhs], ?_, fun _ _ => ⟨hok, hrec⟩, ?_⟩
      · intro hc
        rw [hsp] at hc
        exact absurd hc (by simp)
      · intro _ hsm
        rw [hsm] at h2
        exact absurd h2 (by simp)
    · have h2f : env.sendmail_ok = false := by simpa using h2
      have hsp : (btd_scheduler_send_error_mail sched env bfs record new_errors_found
          issue_report).spawned = true := by
        simp only [btd_scheduler_send_error_mail]
        rw [if_neg h1]
        simp [h2f]
      have hok : (btd_scheduler_send_error_mail sched env bfs record new_errors_found
          issue_report).ok = false := by
        simp only [btd_scheduler_send_error_mail]
        rw [if_neg h1]
        simp [h2f]
      have hrec : (btd_scheduler_send_error_mail sched env bfs record new_errors_found
          issue_report).record = record := by
        simp only [btd_scheduler_send_error_mail]
        rw [if_neg h1]
        simp [h2f]
      refine ⟨by rw [hsp]; simp [hrhs], ?_, ?_, fun _ _ => ⟨hok, hrec⟩⟩
      · intro hc
        rw [hsp] at hc
        exact absurd hc (by simp)
      · intro _ hsm
        rw [hsm] at h2
        exact absurd rfl h2

theorem pair_ne_fst {α β : Type} {a c : α} (b d : β) (h : a ≠ c) : (a, b) ≠ (c, d) :=
  fun hc => h (congrArg Prod.fst hc)

theorem get_times_set_section (r : BtdFsRecord) (g k : Str) (v : Int) (k' : Str) (d : Int)
    (hg : g ≠ ("times").data) :
    btd_fs_record_get_value_int (btd_fs_record_set_value_int r g k v) ("times").data k' d =
      btd_fs_record_get_value_int r ("times").data k' d := by
  rw [btd_fs_record_get_set, if_neg (pair_ne_fst _ _ (fun hc => hg hc.symm))]

theorem send_error_mail_preserves_times (sched : BtdScheduler) (env : BtdMountEnv)
    (bfs : BtdFilesystem) (r : BtdFsRecord) (new : Bool) (rep : Str) (k : Str) (d : Int) :
    btd_fs_record_get_value_int
        (btd_scheduler_send_error_mail sched env bfs r new rep).record ("times").data k d =
      btd_fs_record_get_value_int r ("times").data k d := by
  have hne : (("messages").data : Str) ≠ ("times").data := by decide
  by_cases h1 : new = false ∧
      sched.reference_time -
          btd_fs_record_get_value_int r ("messages").data ("issue_mail_sent").data 0 <
        (SECONDS_IN_AN_HOUR : Int) * 20
  · have hr : (btd_scheduler_send_error_mail sched env bfs r new rep).record = r := by
      simp only [btd_scheduler_send_error_mail]
      rw [if_pos h1]
    rw [hr]
  · by_cases h2 : env.sendmail_ok = true
    · have hr : (btd_scheduler_send_error_mail sched env bfs r new rep).record =
          btd_fs_record_set_value_int r ("messages").data ("issue_mail_sent").data
            sched.reference_time := by
        simp only [btd_scheduler_send_error_mail]
        rw [if_neg h1]
        simp [h2]
      rw [hr, get_times_set_section _ _ _ _ _ _ hne]
    · have hr : (btd_scheduler_send_error_mail sched env bfs r new rep).record = r := by
        simp only [btd_scheduler_send_error_mail]
        rw [if_neg h1]
        simp [h2]
      rw [hr]

theorem run_stats_preserves_times (sched : BtdScheduler) (env : BtdMountEnv)
    (bfs : BtdFilesystem) (r : BtdFsRecord) (k : Str) (d : Int) :
    btd_fs_record_get_value_int
        (btd_scheduler_run_stats sched env bfs r).record ("times").data k d =
      btd_fs_record_get_value_int r ("times").data k d := by
  have hne : (("errors").data : Str) ≠ ("times").data := by decide
  have hnm : (("messages").data : Str) ≠ ("times").data := by decide
  cases hsr : env.stats_result with
  | none => simp [btd_scheduler_run_stats, hsr]
  | some pr =>
    obtain ⟨rep, n⟩ := pr
    simp only [btd_scheduler_run_stats, hsr]
    split_ifs with h0 hbc hmail hmail
    · show btd_fs_record_get_value_int
        (btd_fs_record_set_value_int r ("errors").data ("total").data 0) _ k d = _
      rw [get_times_set_section _ _ _ _ _ _ hne]
    · show btd_fs_record_get_value_int
        (btd_fs_record_set_value_int
          (btd_fs_record_set_value_int r ("errors").data ("total").data n)
          ("messages").data ("broadcast_sent").data sched.reference_time) _ k d = _
      rw [get_times_set_section _ _ _ _ _ _ hnm, get_times_set_section _ _ _ _ _ _ hne]
    · show btd_fs_record_get_value_int
        (btd_fs_record_set_value_int r ("errors").data ("total").data n) _ k d = _
      rw [get_times_set_section _ _ _ _ _ _ hne]
    · show btd_fs_record_get_value_int
        (btd_scheduler_send_error_mail sched env bfs
          (btd_fs_record_set_value_int
            (btd_fs_record_set_value_int r ("errors").data ("total").data n)
            ("messages").data ("broadcast_sent").data sched.reference_time) _ _).record
          _ k d = _
      rw [send_error_mail_preserves_times,
        get_times_set_section _ _ _ _ _ _ hnm, get_times_set_section _ _ _ _ _ _ hne]
    · show btd_fs_record_get_value_int
        (btd_scheduler_send_error_mail sched env bfs
          (btd_fs_record_set_value_int r ("errors").data ("total").data n) _ _).record
          _ k d = _
      rw [send_error_mail_preserves_times, get_times_set_section _ _ _ _ _ _ hne]

theorem handler_preserves_times (a : BtdBtrfsAction) (sched : BtdScheduler)
    (env : BtdMountEnv) (bfs : BtdFilesystem) (r : BtdFsRecord) (k : Str) (d : Int) :
    btd_fs_record_get_value_int
        (btd_scheduler_handler a sched env bfs r).record ("times").data k d =
      btd_fs_record_get_value_int r ("times").data k d := by
  cases a with
  | stats => exact run_stats_preserves_times sched env bfs r k d
  | scrub => rfl
  | balance => rfl

theorem btd_btrfs_action_to_string_inj :
    ∀ a b : BtdBtrfsAction,
      btd_btrfs_action_to_string a = btd_btrfs_action_to_string b → a = b := by
  intro a b h
  cases a <;> cases b <;> first | rfl | exact absurd h (by decide)

theorem run_action_preserves_times_other {a b : BtdBtrfsAction} (hab : a ≠ b)
    (sched : BtdScheduler) (env : BtdMountEnv) (bfs : BtdFilesystem)
    (st : BtdPipelineState) (d : Int) :
    btd_fs_record_get_value_int (btd_scheduler_run_action sched env bfs st b).record
        ("times").data (btd_btrfs_action_to_string a) d =
      btd_fs_record_get_value_int st.record ("times").data (btd_btrfs_action_to_string a) d := by
  have htag : btd_btrfs_action_to_string a ≠ btd_btrfs_action_to_string b :=
    fun hc => hab (btd_btrfs_action_to_string_inj a b hc)
  simp only [btd_scheduler_run_action]
  split_ifs <;> try rfl
  · show btd_fs_record_get_value_int
      (btd_fs_record_set_last_action_time_now
        (btd_scheduler_handler b sched env bfs st.record).record b (env.now_at b)) _ _ d = _
    rw [btd_fs_record_set_last_action_time_now, btd_fs_record_get_set,
      if_neg (fun hc => htag (congrArg Prod.snd hc)), handler_preserves_times]
  · show btd_fs_record_get_value_int
      (btd_scheduler_handler b sched env bfs st.record).record _ _ d = _
    rw [handler_preserves_times]

theorem run_action_invoked_spec (sched : BtdScheduler) (env : BtdMountEnv)
    (bfs : BtdFilesystem) (st : BtdPipelineState) (b : BtdBtrfsAction) :
    (btd_scheduler_run_action sched env bfs st b).invoked = st.invoked ∨
      (btd_scheduler_run_action sched env bfs st b).invoked = st.invoked ++ [b] := by
  simp only [btd_scheduler_run_action]
  split_ifs <;> simp

theorem run_action_launched_spec (sched : BtdScheduler) (env : BtdMountEnv)
    (bfs : BtdFilesystem) (st : BtdPipelineState) (b : BtdBtrfsAction) :
    (btd_scheduler_run_action sched env bfs st b).launched = st.launched ∨
      (btd_scheduler_run_action sched env bfs st b).launched = st.launched ++ [b] := by
  simp only [btd_scheduler_run_action]
  split_ifs <;> simp

theorem run_action_skip_battery {b : BtdBtrfsAction} (hb : allow_on_battery b = false)
    (sched : BtdScheduler) {env : BtdMountEnv} (hob : env.on_battery b = true)
    (bfs : BtdFilesystem) (st : BtdPipelineState) :
    btd_scheduler_run_action sched env bfs st b = st := by
  simp only [btd_scheduler_run_action]
  split_ifs with h1 h2 h3 <;> try rfl
  all_goals exact absurd ⟨hb, hob⟩ h3

theorem run_action_not_due {sched : BtdScheduler} (env : BtdMountEnv)
    (bfs : BtdFilesystem) {st : BtdPipelineState} {b : BtdBtrfsAction}
    (h : toTimeT (btd_scheduler_get_config_duration_for_action sched bfs b) = 0 ∨
      ¬ sched.reference_time - btd_fs_record_get_last_action_time st.record b >
          toTimeT (btd_scheduler_get_config_duration_for_action sched bfs b)) :
    btd_scheduler_run_action sched env bfs st b = st := by
  simp only [btd_scheduler_run_action]
  rcases h with h | h
  · rw [if_pos h]
  · split_ifs with h1 <;> rfl

theorem run_action_invoked_due {sched : BtdScheduler} {env : BtdMountEnv}
    {bfs : BtdFilesystem} {st : BtdPipelineState} {b : BtdBtrfsAction}
    (h : b ∈ (btd_scheduler_run_action sched env bfs st b).invoked) :
    b ∈ st.invoked ∨
      (toTimeT (btd_scheduler_get_config_duration_for_action sched bfs b) ≠ 0 ∧
        sched.reference_time - btd_fs_record_get_last_action_time st.record b >
          toTimeT (btd_scheduler_get_config_duration_for_action sched bfs b)) := by
  by_cases h1 : toTimeT (btd_scheduler_get_config_duration_for_action sched bfs b) = 0
  · rw [run_action_not_due env bfs (Or.inl h1)] at h
    exact Or.inl h
  · by_cases h2 : sched.reference_time - btd_fs_record_get_last_action_time st.record b >
        toTimeT (btd_scheduler_get_config_duration_for_action sched bfs b)
    · exact Or.inr ⟨h1, h2⟩
    · rw [run_action_not_due env bfs (Or.inr h2)] at h
      exact Or.inl h

theorem run_action_invoked_other {a b : BtdBtrfsAction} (hab : a ≠ b)
    {sched : BtdScheduler} {env : BtdMountEnv} {bfs : BtdFilesystem}
    {st : BtdPipelineState} (h : a ∉ st.invoked) :
    a ∉ (btd_scheduler_run_action sched env bfs st b).invoked := by
  rcases run_action_invoked_spec sched env bfs st b with hi | hi <;> rw [hi]
  · exact h
  · simp [h, hab]

theorem run_action_times_disj (sched : BtdScheduler) (env : BtdMountEnv)
    (bfs : BtdFilesystem) (st : BtdPipelineState) (a b : BtdBtrfsAction) (d : Int) :
    btd_fs_record_get_value_int (btd_scheduler_run_action sched env bfs st b).record
        ("times").data (btd_btrfs_action_to_string a) d =
      btd_fs_record_get_value_int st.record ("times").data (btd_btrfs_action_to_string a) d ∨
    btd_fs_record_get_value_int (btd_scheduler_run_action sched env bfs st b).record
        ("times").data (btd_btrfs_action_to_string a) d = env.now_at a := by
  by_cases hab : a = b
  · subst hab
    simp only [btd_scheduler_run_action]
    split_ifs <;> try exact Or.inl rfl
    · right
      show btd_fs_record_get_value_int
        (btd_fs_record_set_last_action_time_now
          (btd_scheduler_handler a sched env bfs st.record).record a (env.now_at a)) _ _ d = _
      rw [btd_fs_record_set_last_action_time_now, btd_fs_record_get_set, if_pos rfl]
    · left
      show btd_fs_record_get_value_int
        (btd_scheduler_handler a sched env bfs st.record).record _ _ d = _
      rw [handler_preserves_times]
  · exact Or.inl (run_action_preserves_times_other hab sched env bfs st d)

theorem run_actions_unfold (sched : BtdScheduler) (env : BtdMountEnv)
    (bfs : BtdFilesystem) (record : BtdFsRecord) :
    btd_scheduler_run_actions sched env bfs record =
      btd_scheduler_run_action sched env bfs
        (btd_scheduler_run_action sched env bfs
          (btd_scheduler_run_action sched env bfs ⟨record, [], []⟩ .stats) .scrub) .balance := rfl

/-- C2 (amended): after the action loop, every `times.<action>` entry of the
record handed to `btd_fs_record_save` is either exactly the value it had in
the loaded record, or exactly the wall-clock time `time (NULL)` read when
`btd_fs_record_set_last_action_time_now` recorded that action's run — not the
scheduler's reference time. -/
theorem run_actions_times_pre_or_wallclock (sched : BtdScheduler) (env : BtdMountEnv)
    (bfs : BtdFilesystem) (record : BtdFsRecord) (a : BtdBtrfsAction) (d : Int) :
    btd_fs_record_get_value_int (btd_scheduler_run_actions sched env bfs record).record
        ("times").data (btd_btrfs_action_to_string a) d =
      btd_fs_record_get_value_int record ("times").data (btd_btrfs_action_to_string a) d ∨
    btd_fs_record_get_value_int (btd_scheduler_run_actions sched env bfs record).record
        ("times").data (btd_btrfs_action_to_string a) d = env.now_at a := by
  rw [run_actions_unfold]
  rcases run_action_times_disj sched env bfs _ a .balance d with h3 | h3
  · rw [h3]
    rcases run_action_times_disj sched env bfs _ a .scrub d with h2 | h2
    · rw [h2]
      rcases run_action_times_disj sched env bfs _ a .stats d with h1 | h1
      · rw [h1]
        exact Or.inl rfl
      · rw [h1]
        exact Or.inr rfl
    · rw [h2]
      exact Or.inr rfl
  · rw [h3]
    exact Or.inr rfl

/-- C2 (counterexample): with reference time 1000, an empty loaded record and
the wall clock at 2000 when scrub's timestamp is recorded, the persisted
`times.scrub` is 2000 — neither the pre-run value 0 nor the reference time
1000, refuting the claim that no third value is possible. -/
theorem times_scrub_third_value :
    btd_fs_record_get_value_int (btd_scheduler_run_actions schedC2 envC2 fsA []).record
        ("times").data ("scrub").data 0 = 2000
    ∧ btd_fs_record_get_value_int ([] : BtdFsRecord) ("times").data ("scrub").data 0 ≠ 2000
    ∧ schedC2.reference_time ≠ 2000 := by decide

/-- C4: an action whose `allow_on_battery` entry is false (Scrub and Balance;
Stats is the only action allowed on battery) is never invoked when the power
probe reports battery power for it, and its `times` entry is left unchanged
by the action loop. -/
theorem battery_guard (sched : BtdScheduler) (env : BtdMountEnv) (bfs : BtdFilesystem)
    (record : BtdFsRecord) (a : BtdBtrfsAction)
    (hb : allow_on_battery a = false) (hob : env.on_battery a = true) :
    (allow_on_battery .scrub = false ∧ allow_on_battery .balance = false ∧
      allow_on_battery .stats = true)
    ∧ a ∉ (btd_scheduler_run_actions sched env bfs record).invoked
    ∧ btd_fs_record_get_value_int (btd_scheduler_run_actions sched env bfs record).record
        ("times").data (btd_btrfs_action_to_string a) 0 =
      btd_fs_record_get_value_int record ("times").data (btd_btrfs_action_to_string a) 0 := by
  refine ⟨⟨rfl, rfl, rfl⟩, ?_⟩
  rw [run_actions_unfold]
  cases a with
  | stats => exact absurd hb (by decide)
  | scrub =>
    rw [run_action_skip_battery (b := .scrub) rfl sched hob bfs]
    constructor
    · apply run_action_invoked_other (by decide)
      apply run_action_invoked_other (by decide)
      simp
    · rw [run_action_preserves_times_other (by decide) sched env bfs,
        run_action_preserves_times_other (by decide) sched env bfs]
  | balance =>
    rw [run_action_skip_battery (b := .balance) rfl sched hob bfs]
    constructor
    · apply run_action_invoked_other (by decide)
      apply run_action_invoked_other (by decide)
      simp
    · rw [run_action_preserves_times_other (by decide) sched env bfs,
        run_action_preserves_times_other (by decide) sched env bfs]

theorem battery_guard_witness :
    (.scrub : BtdBtrfsAction) ∉ (btd_scheduler_run_actions schedC2 envBat fsA []).invoked ∧
    btd_fs_record_get_value_int (btd_scheduler_run_actions schedC2 envBat fsA []).record
        ("times").data (btd_btrfs_action_to_string .scrub) 0 =
      btd_fs_record_get_value_int ([] : BtdFsRecord) ("times").data
        (btd_btrfs_action_to_string .scrub) 0 :=
  (battery_guard schedC2 envBat fsA [] .scrub rfl rfl).2

theorem send_error_mail_rate_limit_witness :
    (btd_scheduler_send_error_mail schedMail envC2 fsA recordMail false []).ok = true
    ∧ (btd_scheduler_send_error_mail schedMail envC2 fsA recordMail false []).record = recordMail
    ∧ (btd_scheduler_send_error_mail schedMail envC2 fsA recordMail false []).spawned = false :=
  ⟨((send_error_mail_rate_limit schedMail envC2 fsA recordMail false []).2.1 (by decide)).1,
   ((send_error_mail_rate_limit schedMail envC2 fsA recordMail false []).2.1 (by decide)).2,
   by decide⟩

theorem mem_invoked_step_back {a b : BtdBtrfsAction} (hab : a ≠ b)
    {sched : BtdScheduler} {env : BtdMountEnv} {bfs : BtdFilesystem}
    {st : BtdPipelineState}
    (h : a ∈ (btd_scheduler_run_action sched env bfs st b).invoked) :
    a ∈ st.invoked := by
  rcases run_action_invoked_spec sched env bfs st b with hi | hi <;> rw [hi] at h
  · exact h
  · rcases List.mem_append.mp h with h | h
    · exact h
    · simp only [List.mem_singleton] at h
      exact absurd h hab

/-- C7: an action's handler is invoked by the action loop only when its
resolved interval is non-zero and the reference time minus its last-run time
strictly exceeds the interval; when the interval is zero or the elapsed time
is no greater than the interval, the action is skipped and its `times` entry
is not modified. -/
theorem interval_gate (sched : BtdScheduler) (env : BtdMountEnv) (bfs : BtdFilesystem)
    (record : BtdFsRecord) (a : BtdBtrfsAction) :
    (a ∈ (btd_scheduler_run_actions sched env bfs record).invoked →
      toTimeT (btd_scheduler_get_config_duration_for_action sched bfs a) ≠ 0 ∧
      sched.reference_time - btd_fs_record_get_last_action_time record a >
        toTimeT (btd_scheduler_get_config_duration_for_action sched bfs a))
    ∧ ((toTimeT (btd_scheduler_get_config_duration_for_action sched bfs a) = 0 ∨
        sched.reference_time - btd_fs_record_get_last_action_time record a ≤
          toTimeT (btd_scheduler_get_config_duration_for_action sched bfs a)) →
      a ∉ (btd_scheduler_run_actions sched env bfs record).invoked ∧
      btd_fs_record_get_value_int (btd_scheduler_run_actions sched env bfs record).record
          ("times").data (btd_btrfs_action_to_string a) 0 =
        btd_fs_record_get_value_int record ("times").data (btd_btrfs_action_to_string a) 0) := by
  cases a with
  | stats =>
    constructor
    · intro h
      rw [run_actions_unfold] at h
      have h2 := mem_invoked_step_back (by decide) h
      have h1 := mem_invoked_step_back (by decide) h2
      rcases run_action_invoked_due h1 with h0 | hdue
      · simp [BtdPipelineState.invoked] at h0
      · exact hdue
    · intro hno
      have hstep : btd_scheduler_run_action sched env bfs ⟨record, [], []⟩ .stats =
          ⟨record, [], []⟩ := by
        apply run_action_not_due
        rcases hno with h | h
        · exact Or.inl h
        · exact Or.inr (not_lt.mpr h)
      rw [run_actions_unfold, hstep]
      constructor
      · apply run_action_invoked_other (by decide)
        apply run_action_invoked_other (by decide)
        simp [BtdPipelineState.invoked]
      · rw [run_action_preserves_times_other (by decide) sched env bfs,
          run_action_preserves_times_other (by decide) sched env bfs]
  | scrub =>
    have hpres : btd_fs_record_get_value_int
        (btd_scheduler_run_action sched env bfs ⟨record, [], []⟩ .stats).record
          ("times").data (btd_btrfs_action_to_string .scrub) 0 =
        btd_fs_record_get_value_int record ("times").data
          (btd_btrfs_action_to_string .scrub) 0 :=
      run_action_preserves_times_other (by decide) sched env bfs _ 0
    constructor
    · intro h
      rw [run_actions_unfold] at h
      have h2 := mem_invoked_step_back (by decide) h
      rcases run_action_invoked_due h2 with h1 | hdue
      · have h0 := mem_invoked_step_back (by decide) h1
        simp [BtdPipelineState.invoked] at h0
      · rw [btd_fs_record_get_last_action_time, hpres] at hdue
        exact hdue
    · intro hno
      have hstep : btd_scheduler_run_action sched env bfs
          (btd_scheduler_run_action sched env bfs ⟨record, [], []⟩ .stats) .scrub =
          btd_scheduler_run_action sched env bfs ⟨record, [], []⟩ .stats := by
        apply run_action_not_due
        rcases hno with h | h
        · exact Or.inl h
        · right
          rw [btd_fs_record_get_last_action_time, hpres]
          exact not_lt.mpr h
      rw [run_actions_unfold, hstep]
      constructor
      · apply run_action_invoked_other (by decide)
        apply run_action_invoked_other (by decide)
        simp [BtdPipelineState.invoked]
      · rw [run_action_preserves_times_other (by decide) sched env bfs,
          run_action_preserves_times_other (by decide) sched env bfs]
  | balance =>
    have hp1 : btd_fs_record_get_value_int
        (btd_scheduler_run_action sched env bfs ⟨record, [], []⟩ .stats).record
          ("times").data (btd_btrfs_action_to_string .balance) 0 =
        btd_fs_record_get_value_int record ("times").data
          (btd_btrfs_action_to_string .balance) 0 :=
      run_action_preserves_times_other (by decide) sched env bfs _ 0
    have hp2 : btd_fs_record_get_value_int
        (btd_scheduler_run_action sched env bfs
          (btd_scheduler_run_action sched env bfs ⟨record, [], []⟩ .stats) .scrub).record
          ("times").data (btd_btrfs_action_to_string .balance) 0 =
        btd_fs_record_get_value_int
          (btd_scheduler_run_action sched env bfs ⟨record, [], []⟩ .stats).record
          ("times").data (btd_btrfs_action_to_string .balance) 0 :=
      run_action_preserves_times_other (by decide) sched env bfs _ 0
    constructor
    · intro h
      rw [run_actions_unfold] at h
      rcases run_action_invoked_due h with h2 | hdue
      · have h1 := mem_invoked_step_back (by decide) h2
        have h0 := mem_invoked_step_back (by decide) h1
        simp [BtdPipelineState.invoked] at h0
      · rw [btd_fs_record_get_last_action_time, hp2, hp1] at hdue
        exact hdue
    · intro hno
      have hstep : btd_scheduler_run_action sched env bfs
          (btd_scheduler_run_action sched env bfs
            (btd_scheduler_run_action sched env bfs ⟨record, [], []⟩ .stats) .scrub)
          .balance =
          btd_scheduler_run_action sched env bfs
            (btd_scheduler_run_action sched env bfs ⟨record, [], []⟩ .stats) .scrub := by
        apply run_action_not_due
        rcases hno with h | h
        · exact Or.inl h
        · right
          rw [btd_fs_record_get_last_action_time, hp2, hp1]
          exact not_lt.mpr h
      rw [run_actions_unfold, hstep]
      constructor
      · apply run_action_invoked_other (by decide)
        apply run_action_invoked_other (by decide)
        simp [BtdPipelineState.invoked]
      · rw [hp2, hp1]

theorem interval_gate_witness :
    (.balance : BtdBtrfsAction) ∉ (btd_scheduler_run_actions schedZero envC2 fsA []).invoked ∧
    btd_fs_record_get_value_int (btd_scheduler_run_actions schedZero envC2 fsA []).record
        ("times").data (btd_btrfs_action_to_string .balance) 0 =
      btd_fs_record_get_value_int ([] : BtdFsRecord) ("times").data
        (btd_btrfs_action_to_string .balance) 0 :=
  (interval_gate schedZero envC2 fsA [] .balance).2 (by decide)

theorem dedup_nodup (seen : List Nat) (l : List BtdFilesystem) :
    ((btd_dedup_mounts seen l).map (fun p => p.devno)).Nodup ∧
      ∀ p ∈ btd_dedup_mounts seen l, p.devno ∉ seen := by
  induction l generalizing seen with
  | nil => simp [btd_dedup_mounts]
  | cons m rest ih =>
    rw [btd_dedup_mounts]
    by_cases hm : m.devno ∈ seen
    · rw [if_pos hm]
      exact ih seen
    · rw [if_neg hm]
      obtain ⟨ihn, ihs⟩ := ih (m.devno :: seen)
      refine ⟨?_, ?_⟩
      · rw [List.map_cons, List.nodup_cons]
        refine ⟨?_, ihn⟩
        intro hc
        obtain ⟨p, hp, hpe⟩ := List.mem_map.mp hc
        exact (ihs p hp) (by rw [hpe]; exact List.mem_cons_self _ _)
      · intro p hp
        rcases List.mem_cons.mp hp with hpm | hp'
        · rw [hpm]
          exact hm
        · exact fun hc => (ihs p hp') (List.mem_cons_of_mem _ hc)

theorem dedup_subset (seen : List Nat) (l : List BtdFilesystem) :
    ∀ p ∈ btd_dedup_mounts seen l, p ∈ l := by
  induction l generalizing seen with
  | nil => simp [btd_dedup_mounts]
  | cons m rest ih =>
    intro p hp
    rw [btd_dedup_mounts] at hp
    by_cases hm : m.devno ∈ seen
    · rw [if_pos hm] at hp
      exact List.mem_cons_of_mem _ (ih seen p hp)
    · rw [if_neg hm] at hp
      rcases List.mem_cons.mp hp with hpm | hp'
      · rw [hpm]
        exact List.mem_cons_self _ _
      · exact List.mem_cons_of_mem _ (ih (m.devno :: seen) p hp')

theorem dedup_represents (seen : List Nat) (l : List BtdFilesystem)
    (hs : List.Sorted btd_filesystem_compare l) :
    ∀ m ∈ l, m.devno ∉ seen →
      ∃ p ∈ btd_dedup_mounts seen l,
        p.devno = m.devno ∧ p.mountpoint ≤ m.mountpoint := by
  induction l generalizing seen with
  | nil => simp
  | cons x rest ih =>
    intro m hm hnot
    obtain ⟨hx, hrest⟩ := List.sorted_cons.mp hs
    rw [btd_dedup_mounts]
    by_cases hxs : x.devno ∈ seen
    · rw [if_pos hxs]
      rcases List.mem_cons.mp hm with hmx | hm'
      · rw [hmx] at hnot
        exact absurd hxs hnot
      · exact ih seen hrest m hm' hnot
    · rw [if_neg hxs]
      rcases List.mem_cons.mp hm with hmx | hm'
      · exact ⟨x, List.mem_cons_self _ _, by rw [hmx], by rw [hmx]⟩
      · by_cases hdev : m.devno = x.devno
        · exact ⟨x, List.mem_cons_self _ _, hdev.symm, hx m hm'⟩
        · obtain ⟨p, hp, hpd, hpm⟩ := ih (x.devno :: seen) hrest m hm'
            (by
              intro hc
              rcases List.mem_cons.mp hc with hc | hc
              · exact hdev hc
              · exact hnot hc)
          exact ⟨p, List.mem_cons_of_mem _ hp, hpd, hpm⟩

/-- C5: the per-mount pipeline runs at most once per distinct device number,
the representative of each device is a mount of that device whose mountpoint
sorts lexicographically first, and on the spec's three-mount scenario the
pipeline runs exactly twice, for /mnt/a then /mnt/c. -/
theorem dedup_by_devno :
    (∀ mounts : List BtdFilesystem,
      ((btd_dedup_mounts [] (btd_sort_mounts mounts)).map (fun p => p.devno)).Nodup
      ∧ (∀ p ∈ btd_dedup_mounts [] (btd_sort_mounts mounts), p ∈ mounts)
      ∧ ∀ m ∈ mounts,
          ∃ p ∈ btd_dedup_mounts [] (btd_sort_mounts mounts),
            p.devno = m.devno ∧ p.mountpoint ≤ m.mountpoint)
    ∧ (btd_scheduler_run schedC2 exampleMounts true (fun _ => envC2)).processed
        = [fsA, fsC] := by
  constructor
  · intro mounts
    refine ⟨(dedup_nodup [] _).1, ?_, ?_⟩
    · intro p hp
      exact (List.perm_insertionSort btd_filesystem_compare mounts).subset
        (dedup_subset [] _ p hp)
    · intro m hm
      exact dedup_represents [] (btd_sort_mounts mounts)
        (List.sorted_insertionSort btd_filesystem_compare mounts) m
        ((List.perm_insertionSort btd_filesystem_compare mounts).mem_iff.mpr hm)
        (by simp)
  · decide

theorem dedup_by_devno_witness :
    ∃ p ∈ btd_dedup_mounts [] (btd_sort_mounts exampleMounts),
      p.devno = fsB.devno ∧ p.mountpoint ≤ fsB.mountpoint :=
  (dedup_by_devno.1 exampleMounts).2.2 fsB (by decide)

/-- C8: once the scheduler is loaded and the caller is root, `run` returns
success and processes exactly the deduplicated sorted mounts, independently of
every per-filesystem oracle (record load failures, handlers that fail to
launch, save failures); each per-mount pipeline call itself returns TRUE. -/
theorem run_resilient (sched : BtdScheduler) (mounts : List BtdFilesystem)
    (envAt envAt' : BtdFilesystem → BtdMountEnv) (hne : mounts ≠ []) :
    (btd_scheduler_run sched mounts true envAt).ok = true
    ∧ (btd_scheduler_run sched mounts true envAt).processed =
        btd_dedup_mounts [] (btd_sort_mounts mounts)
    ∧ (btd_scheduler_run sched mounts true envAt).processed =
        (btd_scheduler_run sched mounts true envAt').processed
    ∧ ∀ r ∈ (btd_scheduler_run sched mounts true envAt).results, r.result = true := by
  have hrun : ∀ e : BtdFilesystem → BtdMountEnv,
      btd_scheduler_run sched mounts true e =
        ⟨true, btd_dedup_mounts [] (btd_sort_mounts mounts),
          (btd_dedup_mounts [] (btd_sort_mounts mounts)).map
            (fun bfs => btd_scheduler_run_for_mount sched (e bfs) bfs)⟩ := by
    intro e
    unfold btd_scheduler_run
    rw [if_neg (by simp), if_neg (fun hc => hne (List.isEmpty_iff.mp hc))]
  rw [hrun, hrun]
  refine ⟨rfl, rfl, rfl, ?_⟩
  intro r hr
  simp only [List.mem_map] at hr
  obtain ⟨bfs, _, hb⟩ := hr
  rw [← hb]
  rfl

theorem run_resilient_witness :
    (btd_scheduler_run schedC2 exampleMounts true (fun _ => envC2)).ok = true :=
  (run_resilient schedC2 exampleMounts (fun _ => envC2) (fun _ => envBat) (by decide)).1

theorem run_action_preserves_record_sb {b : BtdBtrfsAction}
    (hb : b = .scrub ∨ b = .balance) (sched : BtdScheduler) (env : BtdMountEnv)
    (bfs : BtdFilesystem) (st : BtdPipelineState) (g k : Str) (d : Int)
    (hg : g ≠ ("times").data) :
    btd_fs_record_get_value_int (btd_scheduler_run_action sched env bfs st b).record g k d =
      btd_fs_record_get_value_int st.record g k d := by
  have hrec : (btd_scheduler_handler b sched env bfs st.record).record = st.record := by
    rcases hb with rfl | rfl <;> rfl
  simp only [btd_scheduler_run_action]
  split_ifs <;> try rfl
  · show btd_fs_record_get_value_int
      (btd_fs_record_set_last_action_time_now
        (btd_scheduler_handler b sched env bfs st.record).record b (env.now_at b)) g k d = _
    rw [btd_fs_record_set_last_action_time_now, btd_fs_record_get_set,
      if_neg (pair_ne_fst _ _ hg), hrec]
  · show btd_fs_record_get_value_int
      (btd_scheduler_handler b sched env bfs st.record).record g k d = _
    rw [hrec]

theorem notmem_launched_step {a b : BtdBtrfsAction} (hab : a ≠ b)
    {sched : BtdScheduler} {env : BtdMountEnv} {bfs : BtdFilesystem}
    {st : BtdPipelineState} (h : a ∉ st.launched) :
    a ∉ (btd_scheduler_run_action sched env bfs st b).launched := by
  rcases run_action_launched_spec sched env bfs st b with hl | hl <;> rw [hl]
  · exact h
  · simp [h, hab]

theorem mem_invoked_step_fwd {a : BtdBtrfsAction} (b : BtdBtrfsAction)
    {sched : BtdScheduler} {env : BtdMountEnv} {bfs : BtdFilesystem}
    {st : BtdPipelineState} (h : a ∈ st.invoked) :
    a ∈ (btd_scheduler_run_action sched env bfs st b).invoked := by
  rcases run_action_invoked_spec sched env bfs st b with hi | hi <;> rw [hi]
  · exact h
  · exact List.mem_append_left _ h

theorem run_stats_eq_mail (sched : BtdScheduler) (env : BtdMountEnv) (bfs : BtdFilesystem)
    (record : BtdFsRecord) (rep : Str) (n : Int)
    (h1 : env.stats_result = some (rep, n)) (h2 : ¬ n = 0)
    (h3 : btd_is_empty_opt ((btd_scheduler_get_config_value sched (some bfs)
        ("mail_address").data none).map g_strstrip) = false) :
    btd_scheduler_run_stats sched env bfs record =
      ⟨(btd_scheduler_send_error_mail sched env bfs (statsR2 sched record n)
          (decide (n > btd_fs_record_get_value_int record ("errors").data ("total").data 0))
          rep).record,
        (btd_scheduler_send_error_mail sched env bfs (statsR2 sched record n)
          (decide (n > btd_fs_record_get_value_int record ("errors").data ("total").data 0))
          rep).ok⟩ := by
  simp only [btd_scheduler_run_stats, h1, statsR2, statsR1]
  rw [if_neg h2, if_neg (by simp [h3])]

theorem pair_ne_snd {α β : Type} (a c : α) {b d : β} (h : b ≠ d) : (a, b) ≠ (c, d) :=
  fun hc => h (congrArg Prod.snd hc)

theorem statsR2_get_issue (sched : BtdScheduler) (record : BtdFsRecord) (n : Int) :
    btd_fs_record_get_value_int (statsR2 sched record n) ("messages").data
        ("issue_mail_sent").data 0 =
      btd_fs_record_get_value_int record ("messages").data ("issue_mail_sent").data 0 := by
  have hne : ((("messages").data : Str), (("issue_mail_sent").data : Str))
      ≠ (("errors").data, ("total").data) := pair_ne_fst _ _ (by decide)
  unfold statsR2
  split_ifs with hbc
  · rw [btd_fs_record_get_set, if_neg (pair_ne_snd _ _ (by decide))]
    unfold statsR1
    rw [btd_fs_record_get_set, if_neg hne]
  · unfold statsR1
    rw [btd_fs_record_get_set, if_neg hne]

theorem statsR2_get_times (sched : BtdScheduler) (record : BtdFsRecord) (n : Int)
    (k : Str) (d : Int) :
    btd_fs_record_get_value_int (statsR2 sched record n) ("times").data k d =
      btd_fs_record_get_value_int record ("times").data k d := by
  unfold statsR2
  split_ifs with hbc
  · rw [get_times_set_section _ _ _ _ _ _ (by decide)]
    unfold statsR1
    rw [get_times_set_section _ _ _ _ _ _ (by decide)]
  · unfold statsR1
    rw [get_times_set_section _ _ _ _ _ _ (by decide)]

theorem statsR2_get_err (sched : BtdScheduler) (record : BtdFsRecord) (n : Int) :
    btd_fs_record_get_value_int (statsR2 sched record n) ("errors").data ("total").data 0
      = n := by
  unfold statsR2
  split_ifs with hbc
  · rw [btd_fs_record_get_set, if_neg (pair_ne_fst _ _ (by decide))]
    unfold statsR1
    rw [btd_fs_record_get_set, if_pos rfl]
  · unfold statsR1
    rw [btd_fs_record_get_set, if_pos rfl]

theorem statsR1_get_bc (record : BtdFsRecord) (n : Int) :
    btd_fs_record_get_value_int (statsR1 record n) ("messages").data
        ("broadcast_sent").data 0 =
      btd_fs_record_get_value_int record ("messages").data ("broadcast_sent").data 0 := by
  unfold statsR1
  rw [btd_fs_record_get_set, if_neg (pair_ne_fst _ _ (by decide))]

theorem statsR2_get_bc (sched : BtdScheduler) (record : BtdFsRecord) (n : Int)
    (h : n > btd_fs_record_get_value_int record ("errors").data ("total").data 0 ∨
      sched.reference_time -
          btd_fs_record_get_value_int record ("messages").data ("broadcast_sent").data 0 >
        (SECONDS_IN_AN_HOUR : Int) * 6) :
    btd_fs_record_get_value_int (statsR2 sched record n) ("messages").data
        ("broadcast_sent").data 0 = sched.reference_time := by
  unfold statsR2
  rw [statsR1_get_bc, if_pos h, btd_fs_record_get_set, if_pos rfl]

theorem send_error_mail_fail (sched : BtdScheduler) (env : BtdMountEnv)
    (bfs : BtdFilesystem) (r : BtdFsRecord) (new : Bool) (rep : Str)
    (hsup : ¬(new = false ∧
      sched.reference_time -
          btd_fs_record_get_value_int r ("messages").data ("issue_mail_sent").data 0 <
        (SECONDS_IN_AN_HOUR : Int) * 20))
    (h4 : env.sendmail_ok = false) :
    (btd_scheduler_send_error_mail sched env bfs r new rep).ok = false ∧
    (btd_scheduler_send_error_mail sched env bfs r new rep).record = r := by
  constructor <;>
    (simp only [btd_scheduler_send_error_mail]
     rw [if_neg hsup]
     simp [h4])

/-- C10: when reading stats succeeds with a non-zero error count, a mail
address is configured and the mail is due but `sendmail` fails, the stats
handler reports "not launched": `times.stats` keeps its pre-run value (the
action is retried next invocation), yet `errors.total` (and, when its
condition held, `messages.broadcast_sent`) updates are still in the record
handed to `btd_fs_record_save`. -/
theorem stats_mail_failure_retries (sched : BtdScheduler) (env : BtdMountEnv)
    (bfs : BtdFilesystem) (record : BtdFsRecord) (rep : Str) (n : Int)
    (h1 : env.stats_result = some (rep, n))
    (h2 : ¬ n = 0)
    (h3 : btd_is_empty_opt ((btd_scheduler_get_config_value sched (some bfs)
        ("mail_address").data none).map g_strstrip) = false)
    (h4 : env.sendmail_ok = false)
    (h5 : ¬ toTimeT (btd_scheduler_get_config_duration_for_action sched bfs .stats) = 0)
    (h6 : sched.reference_time - btd_fs_record_get_last_action_time record .stats >
        toTimeT (btd_scheduler_get_config_duration_for_action sched bfs .stats))
    (h7 : n > btd_fs_record_get_value_int record ("errors").data ("total").data 0 ∨
        (SECONDS_IN_AN_HOUR : Int) * 20 ≤ sched.reference_time -
          btd_fs_record_get_value_int record ("messages").data ("issue_mail_sent").data 0) :
    (.stats : BtdBtrfsAction) ∈ (btd_scheduler_run_actions sched env bfs record).invoked
    ∧ (.stats : BtdBtrfsAction) ∉ (btd_scheduler_run_actions sched env bfs record).launched
    ∧ btd_fs_record_get_value_int (btd_scheduler_run_actions sched env bfs record).record
        ("times").data (btd_btrfs_action_to_string .stats) 0 =
      btd_fs_record_get_value_int record ("times").data (btd_btrfs_action_to_string .stats) 0
    ∧ btd_fs_record_get_value_int (btd_scheduler_run_actions sched env bfs record).record
        ("errors").data ("total").data 0 = n
    ∧ ((n > btd_fs_record_get_value_int record ("errors").data ("total").data 0 ∨
        sched.reference_time -
            btd_fs_record_get_value_int record ("messages").data ("broadcast_sent").data 0 >
          (SECONDS_IN_AN_HOUR : Int) * 6) →
      btd_fs_record_get_value_int (btd_scheduler_run_actions sched env bfs record).record
          ("messages").data ("broadcast_sent").data 0 = sched.reference_time) := by
  have hsup : ¬((decide (n > btd_fs_record_get_value_int record ("errors").data
        ("total").data 0) : Bool) = false ∧
      sched.reference_time -
          btd_fs_record_get_value_int (statsR2 sched record n) ("messages").data
            ("issue_mail_sent").data 0 <
        (SECONDS_IN_AN_HOUR : Int) * 20) := by
    rw [statsR2_get_issue]
    rcases h7 with h | h
    · intro hc
      exact absurd h (of_decide_eq_false hc.1)
    · intro hc
      exact absurd hc.2 (not_lt.mpr h)
  obtain ⟨hfok, hfrec⟩ := send_error_mail_fail sched env bfs (statsR2 sched record n)
    (decide (n > btd_fs_record_get_value_int record ("errors").data ("total").data 0))
    rep hsup h4
  have hrs : btd_scheduler_run_stats sched env bfs record = ⟨statsR2 sched record n, false⟩ := by
    rw [run_stats_eq_mail sched env bfs record rep n h1 h2 h3, hfok, hfrec]
  have hs1 : btd_scheduler_run_action sched env bfs ⟨record, [], []⟩ .stats =
      ⟨statsR2 sched record n, [.stats], []⟩ := by
    simp only [btd_scheduler_run_action]
    rw [if_neg h5]
    rw [if_pos h6]
    rw [if_neg (by simp [allow_on_battery])]
    show (if (btd_scheduler_run_stats sched env bfs record).launched then _ else
      (⟨(btd_scheduler_run_stats sched env bfs record).record, _, _⟩ : BtdPipelineState)) = _
    rw [hrs]
    simp
  rw [run_actions_unfold, hs1]
  refine ⟨?_, ?_, ?_, ?_, ?_⟩
  · exact mem_invoked_step_fwd .balance (mem_invoked_step_fwd .scrub (by simp))
  · exact notmem_launched_step (by decide)
      (notmem_launched_step (by decide) (by simp))
  · rw [run_action_preserves_times_other (by decide) sched env bfs,
      run_action_preserves_times_other (by decide) sched env bfs]
    exact statsR2_get_times sched record n _ 0
  · rw [run_action_preserves_record_sb (Or.inr rfl) sched env bfs _ _ _ _ (by decide),
      run_action_preserves_record_sb (Or.inl rfl) sched env bfs _ _ _ _ (by decide)]
    exact statsR2_get_err sched record n
  · intro hbc
    rw [run_action_preserves_record_sb (Or.inr rfl) sched env bfs _ _ _ _ (by decide),
      run_action_preserves_record_sb (Or.inl rfl) sched env bfs _ _ _ _ (by decide)]
    exact statsR2_get_bc sched record n hbc

theorem stats_mail_failure_retries_witness :
    (.stats : BtdBtrfsAction) ∉ (btd_scheduler_run_actions schedC10 envC10 fsA []).launched
    ∧ btd_fs_record_get_value_int (btd_scheduler_run_actions schedC10 envC10 fsA []).record
        ("errors").data ("total").data 0 = 3 :=
  ⟨(stats_mail_failure_retries schedC10 envC10 fsA [] (("R").data) 3 (by decide) (by decide)
      (by decide) (by decide) (by decide) (by decide) (Or.inl (by decide))).2.1,
   (stats_mail_failure_retries schedC10 envC10 fsA [] (("R").data) 3 (by decide) (by decide)
      (by decide) (by decide) (by decide) (by decide) (Or.inl (by decide))).2.2.2.1⟩
